import Mathlib

/-!
Verification of the local login system (`auth_system.py`).

The development shallowly embeds the core of the repository:

* `_hash_password` — SHA-256 over the UTF-8 encoding of the password,
  rendered as a 64-character lowercase hex digest (`hashlib.sha256(...).hexdigest()`).
  SHA-256 itself is implemented below over `Nat` with explicit `% 2^32`.
* the credential store — the JSON file of `username ↦ {password, created_at}`
  records, modelled as a `FileState` (absent / invalid JSON / a stored mapping);
* the lockout tracker — the in-memory `failed_attempts` dictionary;
* the operations `register_user`, `login`, `user_exists`, `get_user_count`,
  `unblock_user` and the private helpers they call.

Python dictionaries are modelled as association lists whose update,
lookup and deletion operations act on the key extensionally, matching
dict semantics.  Nondeterministic inputs of the Python code become
explicit parameters: the timestamp written at registration (`now`) and
whether the file write succeeds (`saveOk`).
-/

namespace SistemaLogin

/-! ### SHA-256 primitives (32-bit words as `Nat` modulo `M32`) -/

def M32 : Nat := 4294967296

/-- Rotate the 32-bit word `x` right by `n` bits. -/
def rotate32 (n x : Nat) : Nat := ((x >>> n) ||| (x <<< (32 - n))) % M32

def chW (x y z : Nat) : Nat := (x &&& y) ^^^ ((x ^^^ (M32 - 1)) &&& z)

def majW (x y z : Nat) : Nat := (x &&& y) ^^^ (x &&& z) ^^^ (y &&& z)

def sum0 (x : Nat) : Nat := rotate32 2 x ^^^ rotate32 13 x ^^^ rotate32 22 x

def sum1 (x : Nat) : Nat := rotate32 6 x ^^^ rotate32 11 x ^^^ rotate32 25 x

def sml0 (x : Nat) : Nat := rotate32 7 x ^^^ rotate32 18 x ^^^ (x >>> 3)

def sml1 (x : Nat) : Nat := rotate32 17 x ^^^ rotate32 19 x ^^^ (x >>> 10)

/-- The 64 SHA-256 round constants of FIPS 180-4, in decimal. -/
def roundConsts : List Nat :=
  [1116352408, 1899447441, 3049323471, 3921009573, 961987163,
   1508970993, 2453635748, 2870763221, 3624381080, 310598401,
   607225278, 1426881987, 1925078388, 2162078206, 2614888103,
   3248222580, 3835390401, 4022224774, 264347078, 604807628,
   770255983, 1249150122, 1555081692, 1996064986, 2554220882,
   2821834349, 2952996808, 3210313671, 3336571891, 3584528711,
   113926993, 338241895, 666307205, 773529912, 1294757372,
   1396182291, 1695183700, 1986661051, 2177026350, 2456956037,
   2730485921, 2820302411, 3259730800, 3345764771, 3516065817,
   3600352804, 4094571909, 275423344, 430227734, 506948616,
   659060556, 883997877, 958139571, 1322822218, 1537002063,
   1747873779, 1955562222, 2024104815, 2227730452, 2361852424,
   2428436474, 2756734187, 3204031479, 3329325298]

structure Hash8 where
  a : Nat
  b : Nat
  c : Nat
  d : Nat
  e : Nat
  f : Nat
  g : Nat
  h : Nat

/-- The eight SHA-256 initial hash values of FIPS 180-4, in decimal. -/
def initHash : Hash8 :=
  ⟨1779033703, 3144134277, 1013904242, 2773480762,
   1359893119, 2600822924, 528734635, 1541459225⟩

def roundStep (st : Hash8) (kw : Nat × Nat) : Hash8 :=
  let t1 := (st.h + sum1 st.e + chW st.e st.f st.g + kw.1 + kw.2) % M32
  let t2 := (sum0 st.a + majW st.a st.b st.c) % M32
  ⟨(t1 + t2) % M32, st.a, st.b, st.c, (st.d + t1) % M32, st.e, st.f, st.g⟩

/-- Extend the message schedule by `n` further words; the word list is kept
most-recent-first, so `W[t-2]` is at index 1 and `W[t-16]` at index 15. -/
def extendW : Nat → List Nat → List Nat
  | 0, w => w
  | n + 1, w =>
      extendW n
        (((sml1 (w.getD 1 0) + w.getD 6 0 + sml0 (w.getD 14 0) + w.getD 15 0) % M32) :: w)

def messageSchedule (block : List Nat) : List Nat :=
  (extendW 48 block.reverse).reverse

def compress (st : Hash8) (block : List Nat) : Hash8 :=
  let r := (roundConsts.zip (messageSchedule block)).foldl roundStep st
  ⟨(st.a + r.a) % M32, (st.b + r.b) % M32, (st.c + r.c) % M32, (st.d + r.d) % M32,
   (st.e + r.e) % M32, (st.f + r.f) % M32, (st.g + r.g) % M32, (st.h + r.h) % M32⟩

def bytesToWords : List Nat → List Nat
  | b0 :: b1 :: b2 :: b3 :: rest => (((b0 * 256 + b1) * 256 + b2) * 256 + b3) :: bytesToWords rest
  | _ => []

/-- Split into 64-byte chunks.  The `Nat` argument is fuel (one unit per
chunk suffices since every chunk consumes at least one byte); it keeps the
recursion structural so that the kernel can evaluate it. -/
def chunks64Aux : Nat → List Nat → List (List Nat)
  | 0, _ => []
  | _, [] => []
  | fuel + 1, x :: xs => ((x :: xs).take 64) :: chunks64Aux fuel ((x :: xs).drop 64)

def chunks64 (l : List Nat) : List (List Nat) := chunks64Aux l.length l

/-- SHA-256 padding: append `0x80`, zero bytes up to 56 mod 64, then the
bit length as 8 big-endian bytes. -/
def padBytes (msg : List Nat) : List Nat :=
  let L := msg.length
  let bitLen := L * 8
  msg ++ 128 :: List.replicate ((119 - L % 64) % 64) 0 ++
    [(bitLen >>> 56) % 256, (bitLen >>> 48) % 256, (bitLen >>> 40) % 256, (bitLen >>> 32) % 256,
     (bitLen >>> 24) % 256, (bitLen >>> 16) % 256, (bitLen >>> 8) % 256, bitLen % 256]

def sha256Words (msg : List Nat) : Hash8 :=
  (chunks64 (padBytes msg)).foldl (fun st b => compress st (bytesToWords b)) initHash

def hexChar (n : Nat) : Char := if n < 10 then Char.ofNat (48 + n) else Char.ofNat (87 + n)

def toHex8 (x : Nat) : List Char :=
  [hexChar ((x >>> 28) % 16), hexChar ((x >>> 24) % 16), hexChar ((x >>> 20) % 16),
   hexChar ((x >>> 16) % 16), hexChar ((x >>> 12) % 16), hexChar ((x >>> 8) % 16),
   hexChar ((x >>> 4) % 16), hexChar (x % 16)]

def hexDigest (st : Hash8) : String :=
  ⟨toHex8 st.a ++ toHex8 st.b ++ toHex8 st.c ++ toHex8 st.d ++
   toHex8 st.e ++ toHex8 st.f ++ toHex8 st.g ++ toHex8 st.h⟩

/-- UTF-8 encoding of one code point, as byte values. -/
def utf8Char (c : Nat) : List Nat :=
  if c < 128 then [c]
  else if c < 2048 then [192 + c / 64, 128 + c % 64]
  else if c < 65536 then [224 + c / 4096, 128 + (c / 64) % 64, 128 + c % 64]
  else [240 + c / 262144, 128 + (c / 4096) % 64, 128 + (c / 64) % 64, 128 + c % 64]

def utf8Encode (s : String) : List Nat := (s.data.map (fun c => utf8Char c.toNat)).flatten

/-- `AuthSystem._hash_password`: `hashlib.sha256(password.encode()).hexdigest()`. -/
def _hash_password (password : String) : String :=
  hexDigest (sha256Words (utf8Encode password))

/-! ### Python dictionaries as association lists

Lookup, assignment and deletion act on the key extensionally; in every
reachable state the key lists are duplicate-free, exactly as in a dict. -/

def dictGet {α : Type} (k : String) : List (String × α) → Option α
  | [] => none
  | (k', v) :: rest => if k' = k then some v else dictGet k rest

/-- `m.get(k, d)` -/
def dictGetD {α : Type} (m : List (String × α)) (k : String) (d : α) : α :=
  (dictGet k m).getD d

/-- `m[k] = v`: replace the entry if the key is present, else append. -/
def dictSet {α : Type} (k : String) (v : α) : List (String × α) → List (String × α)
  | [] => [(k, v)]
  | (k', v') :: rest => if k' = k then (k, v) :: rest else (k', v') :: dictSet k v rest

/-- `del m[k]`: remove the key. -/
def dictErase {α : Type} (k : String) : List (String × α) → List (String × α)
  | [] => []
  | (k', v') :: rest => if k' = k then dictErase k rest else (k', v') :: dictErase k rest

/-! ### The data model -/

/-- One value of the users mapping: `{"password": digest, "created_at": iso-timestamp}`. -/
structure UserRecord where
  password : String
  created_at : String
deriving DecidableEq

/-- The users mapping stored in the JSON file. -/
abbrev Users := List (String × UserRecord)

/-- Contents of the backing file `users_file`: missing, unparseable JSON,
or a stored users mapping. -/
inductive FileState where
  | absent
  | invalid
  | stored (users : Users)
deriving DecidableEq

/-- The state of one `AuthSystem` instance: the backing file plus the
in-memory `failed_attempts` counter and the `max_attempts` threshold. -/
structure AuthSystem where
  file : FileState
  failed_attempts : List (String × Nat)
  max_attempts : Nat
deriving DecidableEq

/-- `AuthSystem.__init__`: empty failure tracker, `max_attempts = 3`; the
backing file holds whatever `f` says. -/
def AuthSystem.init (f : FileState) : AuthSystem := ⟨f, [], 3⟩

/-- `AuthSystem._load_users`: missing file or invalid JSON yields `{}`. -/
def _load_users (s : AuthSystem) : Users :=
  match s.file with
  | .stored users => users
  | _ => []

/-- `AuthSystem._save_users`: overwrite the file with `users` and return
`True`; on an I/O error print, return `False` and leave the state alone.
The parameter `saveOk` says whether the write succeeds. -/
def _save_users (saveOk : Bool) (s : AuthSystem) (users : Users) : Bool × AuthSystem :=
  if saveOk then (true, { s with file := .stored users }) else (false, s)

/-- `self.failed_attempts.get(username, 0)` -/
def getAttempts (s : AuthSystem) (username : String) : Nat :=
  dictGetD s.failed_attempts username 0

/-- `AuthSystem._is_user_blocked` -/
def _is_user_blocked (s : AuthSystem) (username : String) : Bool :=
  decide (s.max_attempts ≤ getAttempts s username)

/-- `AuthSystem._increment_failed_attempts` -/
def _increment_failed_attempts (s : AuthSystem) (username : String) : AuthSystem :=
  { s with failed_attempts := dictSet username (getAttempts s username + 1) s.failed_attempts }

/-- `AuthSystem._reset_failed_attempts` -/
def _reset_failed_attempts (s : AuthSystem) (username : String) : AuthSystem :=
  if (dictGet username s.failed_attempts).isSome then
    { s with failed_attempts := dictErase username s.failed_attempts }
  else s

/-! ### Result messages (verbatim from the source) -/

def msgEmpty : String := "El nombre de usuario y la contraseña no pueden estar vacíos"

def msgShortUser : String := "El nombre de usuario debe tener al menos 3 caracteres"

def msgShortPass : String := "La contraseña debe tener al menos 6 caracteres"

def msgDuplicate : String := "El usuario ya existe"

def msgRegistered : String := "Usuario registrado exitosamente"

def msgSaveError : String := "Error al guardar el usuario"

def msgNotFound : String := "Usuario no encontrado"

def msgLoginOk : String := "Login exitoso"

def blockedMsg (n : Nat) : String :=
  "Usuario bloqueado. Has superado el máximo de " ++ toString n ++ " intentos"

def incorrectMsg (n : Nat) : String :=
  "Contraseña incorrecta. Te quedan " ++ toString n ++ " intentos"

/-! ### The operations -/

/-- `AuthSystem.register_user`.  `now` is the timestamp
`_get_current_timestamp()` would return; `saveOk` is whether the file
write succeeds. -/
def register_user (saveOk : Bool) (s : AuthSystem) (username password now : String) :
    (Bool × String) × AuthSystem :=
  if username = "" ∨ password = "" then ((false, msgEmpty), s)
  else if username.length < 3 then ((false, msgShortUser), s)
  else if password.length < 6 then ((false, msgShortPass), s)
  else
    let users := _load_users s
    if (dictGet username users).isSome then ((false, msgDuplicate), s)
    else
      let users2 := dictSet username ⟨_hash_password password, now⟩ users
      match _save_users saveOk s users2 with
      | (true, s2) => ((true, msgRegistered), s2)
      | (false, s2) => ((false, msgSaveError), s2)

/-- `AuthSystem.login`.  `remaining` in the source is an `int` and the
branch is `remaining <= 0`; with truncated `Nat` subtraction that branch
condition is exactly `remaining = 0`. -/
def login (s : AuthSystem) (username password : String) : (Bool × String) × AuthSystem :=
  if _is_user_blocked s username then
    ((false, blockedMsg s.max_attempts), s)
  else
    let users := _load_users s
    match dictGet username users with
    | none => ((false, msgNotFound), _increment_failed_attempts s username)
    | some record =>
        if record.password = _hash_password password then
          ((true, msgLoginOk), _reset_failed_attempts s username)
        else
          let s2 := _increment_failed_attempts s username
          let remaining := s2.max_attempts - getAttempts s2 username
          if remaining = 0 then ((false, blockedMsg s2.max_attempts), s2)
          else ((false, incorrectMsg remaining), s2)

/-- `AuthSystem.get_user_count` -/
def get_user_count (s : AuthSystem) : Nat := (_load_users s).length

/-- `AuthSystem.user_exists` -/
def user_exists (s : AuthSystem) (username : String) : Bool :=
  (dictGet username (_load_users s)).isSome

/-- `AuthSystem.unblock_user` -/
def unblock_user (s : AuthSystem) (username : String) : Bool × AuthSystem :=
  if (dictGet username s.failed_attempts).isSome then
    (true, { s with failed_attempts := dictErase username s.failed_attempts })
  else (false, s)

/-! ### Dictionary lemmas -/

theorem dictGet_dictSet_self {α : Type} (k : String) (v : α) (m : List (String × α)) :
    dictGet k (dictSet k v m) = some v := by
  induction m with
  | nil => simp [dictGet, dictSet]
  | cons hd tl ih =>
      obtain ⟨k', v'⟩ := hd
      by_cases h : k' = k <;> simp [dictGet, dictSet, h, ih]

theorem dictGet_dictSet_other {α : Type} {k k' : String} (h : k' ≠ k) (v : α)
    (m : List (String × α)) : dictGet k' (dictSet k v m) = dictGet k' m := by
  induction m with
  | nil => simp [dictGet, dictSet, Ne.symm h]
  | cons hd tl ih =>
      obtain ⟨k'', v''⟩ := hd
      by_cases h2 : k'' = k
      · subst h2
        simp [dictGet, dictSet, Ne.symm h]
      · simp [dictGet, dictSet, h2, ih]

theorem dictGet_dictErase_self {α : Type} (k : String) (m : List (String × α)) :
    dictGet k (dictErase k m) = none := by
  induction m with
  | nil => simp [dictGet, dictErase]
  | cons hd tl ih =>
      obtain ⟨k', v'⟩ := hd
      by_cases h : k' = k <;> simp [dictGet, dictErase, h, ih]

theorem dictGet_dictErase_other {α : Type} {k k' : String} (h : k' ≠ k)
    (m : List (String × α)) : dictGet k' (dictErase k m) = dictGet k' m := by
  induction m with
  | nil => simp [dictErase]
  | cons hd tl ih =>
      obtain ⟨k'', v''⟩ := hd
      by_cases h2 : k'' = k
      · subst h2
        simp [dictGet, dictErase, Ne.symm h, ih]
      · simp [dictGet, dictErase, h2, ih]

/-! ### State-effect lemmas for the private helpers -/

theorem file_increment (s : AuthSystem) (u : String) :
    (_increment_failed_attempts s u).file = s.file := rfl

theorem max_increment (s : AuthSystem) (u : String) :
    (_increment_failed_attempts s u).max_attempts = s.max_attempts := rfl

theorem file_reset (s : AuthSystem) (u : String) :
    (_reset_failed_attempts s u).file = s.file := by
  unfold _reset_failed_attempts
  split <;> rfl

theorem max_reset (s : AuthSystem) (u : String) :
    (_reset_failed_attempts s u).max_attempts = s.max_attempts := by
  unfold _reset_failed_attempts
  split <;> rfl

theorem getAttempts_increment_self (s : AuthSystem) (u : String) :
    getAttempts (_increment_failed_attempts s u) u = getAttempts s u + 1 := by
  simp [getAttempts, dictGetD, _increment_failed_attempts, dictGet_dictSet_self]

theorem getAttempts_increment_other (s : AuthSystem) {u u' : String} (h : u' ≠ u) :
    getAttempts (_increment_failed_attempts s u) u' = getAttempts s u' := by
  simp [getAttempts, dictGetD, _increment_failed_attempts, dictGet_dictSet_other h]

theorem dictGet_reset_self (s : AuthSystem) (u : String) :
    dictGet u (_reset_failed_attempts s u).failed_attempts = none := by
  unfold _reset_failed_attempts
  split
  · exact dictGet_dictErase_self u s.failed_attempts
  · next h => exact Option.not_isSome_iff_eq_none.mp h

theorem getAttempts_reset_self (s : AuthSystem) (u : String) :
    getAttempts (_reset_failed_attempts s u) u = 0 := by
  simp [getAttempts, dictGetD, dictGet_reset_self]

theorem blocked_iff (s : AuthSystem) (u : String) :
    _is_user_blocked s u = true ↔ s.max_attempts ≤ getAttempts s u := by
  simp [_is_user_blocked]

theorem not_blocked_iff (s : AuthSystem) (u : String) :
    _is_user_blocked s u = false ↔ getAttempts s u < s.max_attempts := by
  simp [_is_user_blocked]

theorem load_of_file_eq {s s' : AuthSystem} (h : s.file = s'.file) :
    _load_users s = _load_users s' := by
  unfold _load_users
  rw [h]

/-! ### Branch characterizations of `login` -/

theorem login_blocked (s : AuthSystem) (u p : String) (h : _is_user_blocked s u = true) :
    login s u p = ((false, blockedMsg s.max_attempts), s) := by
  simp [login, h]

theorem login_not_found (s : AuthSystem) (u p : String) (h : _is_user_blocked s u = false)
    (habs : dictGet u (_load_users s) = none) :
    login s u p = ((false, msgNotFound), _increment_failed_attempts s u) := by
  simp [login, h, habs]

theorem login_correct (s : AuthSystem) (u p : String) (r : UserRecord)
    (h : _is_user_blocked s u = false) (hget : dictGet u (_load_users s) = some r)
    (hpw : r.password = _hash_password p) :
    login s u p = ((true, msgLoginOk), _reset_failed_attempts s u) := by
  simp [login, h, hget, hpw]

theorem login_wrong (s : AuthSystem) (u p : String) (r : UserRecord)
    (h : _is_user_blocked s u = false) (hget : dictGet u (_load_users s) = some r)
    (hpw : r.password ≠ _hash_password p) :
    login s u p =
      ((false,
        if s.max_attempts - (getAttempts s u + 1) = 0 then blockedMsg s.max_attempts
        else incorrectMsg (s.max_attempts - (getAttempts s u + 1))),
       _increment_failed_attempts s u) := by
  simp only [login, h, hget, Bool.false_eq_true, if_false, hpw, max_increment,
    getAttempts_increment_self]
  split <;> simp

theorem login_preserves_file (s : AuthSystem) (u p : String) :
    (login s u p).2.file = s.file := by
  unfold login
  split
  · rfl
  · cases hget : dictGet u (_load_users s) with
    | none => simp [hget, file_increment]
    | some r =>
        simp only [hget]
        split
        · exact file_reset s u
        · split <;> exact file_increment s u

theorem login_preserves_max (s : AuthSystem) (u p : String) :
    (login s u p).2.max_attempts = s.max_attempts := by
  unfold login
  split
  · rfl
  · cases hget : dictGet u (_load_users s) with
    | none => simp [hget, max_increment]
    | some r =>
        simp only [hget]
        split
        · exact max_reset s u
        · split <;> exact max_increment s u

/-! ### Branch characterizations of `register_user` -/

theorem register_rejected (saveOk : Bool) (s : AuthSystem) (u p now : String)
    (h : u = "" ∨ p = "" ∨ u.length < 3 ∨ p.length < 6 ∨
      (dictGet u (_load_users s)).isSome = true) :
    (register_user saveOk s u p now).1.1 = false ∧ (register_user saveOk s u p now).2 = s := by
  unfold register_user
  split_ifs with h1 h2 h3
  · simp
  · simp
  · simp
  · have hd : (dictGet u (_load_users s)).isSome = true := by
      rcases h with he | he | he | he | he
      · exact absurd (Or.inl he) h1
      · exact absurd (Or.inr he) h1
      · exact absurd he h2
      · exact absurd he h3
      · exact he
    simp [hd]

theorem register_success (s : AuthSystem) (u p now : String)
    (hu : 3 ≤ u.length) (hp : 6 ≤ p.length)
    (habs : dictGet u (_load_users s) = none) :
    register_user true s u p now =
      ((true, msgRegistered),
       { s with file := .stored (dictSet u ⟨_hash_password p, now⟩ (_load_users s)) }) := by
  have hu0 : ¬ u = "" := by
    intro he
    rw [he] at hu
    simp [String.length] at hu
  have hp0 : ¬ p = "" := by
    intro he
    rw [he] at hp
    simp [String.length] at hp
  unfold register_user _save_users
  simp [hu0, hp0, Nat.not_lt.mpr hu, Nat.not_lt.mpr hp, habs]

theorem register_frame (saveOk : Bool) (s : AuthSystem) (u p now : String) :
    (register_user saveOk s u p now).2.failed_attempts = s.failed_attempts ∧
    (register_user saveOk s u p now).2.max_attempts = s.max_attempts := by
  unfold register_user _save_users
  cases saveOk <;> split_ifs <;> simp_all <;> split <;> simp

theorem register_ignores_attempts (saveOk : Bool) (s : AuthSystem) (fa : List (String × Nat))
    (u p now : String) :
    (register_user saveOk { s with failed_attempts := fa } u p now).1 =
      (register_user saveOk s u p now).1 := by
  unfold register_user _save_users
  simp only [show _load_users { s with failed_attempts := fa } = _load_users s from rfl]
  cases saveOk <;> split_ifs <;> rfl

/-! ### Lemmas about `unblock_user` -/

theorem unblock_fst (s : AuthSystem) (u : String) :
    (unblock_user s u).1 = (dictGet u s.failed_attempts).isSome := by
  unfold unblock_user
  split
  · next h => exact h.symm
  · next h => exact (Bool.not_eq_true _).mp (fun hc => h hc) |>.symm

theorem unblock_file (s : AuthSystem) (u : String) :
    (unblock_user s u).2.file = s.file := by
  unfold unblock_user
  split <;> rfl

theorem unblock_max (s : AuthSystem) (u : String) :
    (unblock_user s u).2.max_attempts = s.max_attempts := by
  unfold unblock_user
  split <;> rfl

theorem dictGet_unblock_self (s : AuthSystem) (u : String) :
    dictGet u (unblock_user s u).2.failed_attempts = none := by
  unfold unblock_user
  split
  · exact dictGet_dictErase_self u s.failed_attempts
  · next h => exact Option.not_isSome_iff_eq_none.mp h

theorem getAttempts_unblock_self (s : AuthSystem) (u : String) :
    getAttempts (unblock_user s u).2 u = 0 := by
  simp [getAttempts, dictGetD, dictGet_unblock_self]

/-- `_is_user_blocked` ignores the backing file. -/
theorem blocked_file_update (s : AuthSystem) (f : FileState) (u : String) :
    _is_user_blocked { s with file := f } u = _is_user_blocked s u := rfl

/-- Iterated authentication: the state after `n` calls of
`login · u p` starting from `s`. -/
def loginN (s : AuthSystem) (u p : String) : Nat → AuthSystem
  | 0 => s
  | n + 1 => (login (loginN s u p n) u p).2

theorem loginN_invariant (s : AuthSystem) (u p : String)
    (h0 : getAttempts s u = 0) (habs : dictGet u (_load_users s) = none) :
    ∀ n, n ≤ s.max_attempts →
      (loginN s u p n).file = s.file ∧
      (loginN s u p n).max_attempts = s.max_attempts ∧
      getAttempts (loginN s u p n) u = n := by
  intro n
  induction n with
  | zero => exact fun _ => ⟨rfl, rfl, h0⟩
  | succ k ih =>
      intro hk
      obtain ⟨hf, hm, hc⟩ := ih (Nat.le_of_succ_le hk)
      have hb : _is_user_blocked (loginN s u p k) u = false := by
        rw [not_blocked_iff, hc, hm]
        omega
      have habs2 : dictGet u (_load_users (loginN s u p k)) = none := by
        rw [load_of_file_eq hf]
        exact habs
      have e : login (loginN s u p k) u p =
          ((false, msgNotFound), _increment_failed_attempts (loginN s u p k) u) :=
        login_not_found _ u p hb habs2
      refine ⟨?_, ?_, ?_⟩
      · simp only [loginN, e, file_increment]
        exact hf
      · simp only [loginN, e, max_increment]
        exact hm
      · simp only [loginN, e, getAttempts_increment_self]
        rw [hc]

/-! ### Concrete states used by the witnesses -/

def aliceRecord : UserRecord := ⟨_hash_password "secret1", "2024-01-01T00:00:00"⟩

/-- A store holding exactly the user `alice`, with a fresh failure tracker. -/
def aliceStore : AuthSystem := ⟨.stored [("alice", aliceRecord)], [], 3⟩

/-- Same store, but `alice` already has 3 recorded failures (blocked). -/
def aliceBlocked : AuthSystem := ⟨.stored [("alice", aliceRecord)], [("alice", 3)], 3⟩

/-- An empty store where the unregistered name `ghost` is blocked. -/
def ghostBlocked : AuthSystem := ⟨.absent, [("ghost", 3)], 3⟩

/-! ### The claims -/

/-- C1: for a registered user `u` whose stored digest is the hash of `c`,
with threshold 3 and no prior failure entry, three login calls with a
wrong password `w` all fail (2 then 1 attempts remaining, then the blocked
message), the third leaves the account blocked, and a fourth call with
the correct password `c` still fails with the blocked outcome, because the
blocked check precedes the credential comparison. -/
theorem C1_lockout_sequence (s : AuthSystem) (u w c : String) (r : UserRecord)
    (hmax : s.max_attempts = 3) (h0 : getAttempts s u = 0)
    (hget : dictGet u (_load_users s) = some r)
    (hr : r.password = _hash_password c)
    (hw : _hash_password w ≠ _hash_password c) :
    (login s u w).1 = (false, incorrectMsg 2) ∧
    (login (login s u w).2 u w).1 = (false, incorrectMsg 1) ∧
    (login (login (login s u w).2 u w).2 u w).1 = (false, blockedMsg 3) ∧
    _is_user_blocked (login (login (login s u w).2 u w).2 u w).2 u = true ∧
    (login (login (login (login s u w).2 u w).2 u w).2 u c).1 = (false, blockedMsg 3) := by
  have hwr : r.password ≠ _hash_password w := by
    rw [hr]
    exact Ne.symm hw
  have hb0 : _is_user_blocked s u = false := by
    rw [not_blocked_iff, hmax, h0]
    omega
  have e1 : login s u w = ((false, incorrectMsg 2), _increment_failed_attempts s u) := by
    rw [login_wrong s u w r hb0 hget hwr, hmax, h0]
    norm_num
  set s1 := _increment_failed_attempts s u with hs1
  have hm1 : s1.max_attempts = 3 := by rw [hs1, max_increment, hmax]
  have ha1 : getAttempts s1 u = 1 := by rw [hs1, getAttempts_increment_self, h0]
  have hg1 : dictGet u (_load_users s1) = some r := by
    rw [hs1, load_of_file_eq (file_increment s u)]
    exact hget
  have hb1 : _is_user_blocked s1 u = false := by
    rw [not_blocked_iff, hm1, ha1]
    omega
  have e2 : login s1 u w = ((false, incorrectMsg 1), _increment_failed_attempts s1 u) := by
    rw [login_wrong s1 u w r hb1 hg1 hwr, hm1, ha1]
    norm_num
  set s2 := _increment_failed_attempts s1 u with hs2
  have hm2 : s2.max_attempts = 3 := by rw [hs2, max_increment, hm1]
  have ha2 : getAttempts s2 u = 2 := by rw [hs2, getAttempts_increment_self, ha1]
  have hg2 : dictGet u (_load_users s2) = some r := by
    rw [hs2, load_of_file_eq (file_increment s1 u)]
    exact hg1
  have hb2 : _is_user_blocked s2 u = false := by
    rw [not_blocked_iff, hm2, ha2]
    omega
  have e3 : login s2 u w = ((false, blockedMsg 3), _increment_failed_attempts s2 u) := by
    rw [login_wrong s2 u w r hb2 hg2 hwr, hm2, ha2]
    norm_num
  set s3 := _increment_failed_attempts s2 u with hs3
  have hm3 : s3.max_attempts = 3 := by rw [hs3, max_increment, hm2]
  have ha3 : getAttempts s3 u = 3 := by rw [hs3, getAttempts_increment_self, ha2]
  have hb3 : _is_user_blocked s3 u = true := by
    rw [blocked_iff, hm3, ha3]
  have e4 : login s3 u c = ((false, blockedMsg 3), s3) := by
    rw [login_blocked s3 u c hb3, hm3]
  simp [e1, e2, e3, e4, hb3]

/-- Witness for C1 at the concrete store holding `alice` / `secret1`. -/
theorem C1_lockout_sequence_witness :
    (login aliceStore "alice" "wrong").1 = (false, incorrectMsg 2) ∧
    (login (login aliceStore "alice" "wrong").2 "alice" "wrong").1 = (false, incorrectMsg 1) ∧
    (login (login (login aliceStore "alice" "wrong").2 "alice" "wrong").2 "alice" "wrong").1 =
      (false, blockedMsg 3) ∧
    _is_user_blocked
      (login (login (login aliceStore "alice" "wrong").2 "alice" "wrong").2 "alice" "wrong").2
      "alice" = true ∧
    (login (login (login (login aliceStore "alice" "wrong").2 "alice" "wrong").2
      "alice" "wrong").2 "alice" "secret1").1 = (false, blockedMsg 3) :=
  C1_lockout_sequence aliceStore "alice" "wrong" "secret1" aliceRecord rfl rfl rfl rfl
    (by decide)

/-- C2: the boundary registrations `("", "abcdef")`, `("ab", "abcdef")` and
`("abc", "12345")` fail with a validation outcome and leave the state
untouched, whichever way the save would go; `("abc", "123456")` on a store
without `"abc"` succeeds when the save succeeds. -/
theorem C2_validation_boundaries (saveOk : Bool) (s : AuthSystem) (now : String)
    (habs : dictGet "abc" (_load_users s) = none) :
    register_user saveOk s "" "abcdef" now = ((false, msgEmpty), s) ∧
    register_user saveOk s "ab" "abcdef" now = ((false, msgShortUser), s) ∧
    register_user saveOk s "abc" "12345" now = ((false, msgShortPass), s) ∧
    (register_user true s "abc" "123456" now).1 = (true, msgRegistered) := by
  refine ⟨?_, ?_, ?_, ?_⟩
  · simp [register_user]
  · have h1 : ¬ (("ab" : String) = "" ∨ ("abcdef" : String) = "") := by decide
    have h2 : ("ab" : String).length < 3 := by decide
    simp [register_user, h1, h2]
  · have h1 : ¬ (("abc" : String) = "" ∨ ("12345" : String) = "") := by decide
    have h2 : ¬ ("abc" : String).length < 3 := by decide
    have h3 : ("12345" : String).length < 6 := by decide
    simp [register_user, h1, h2, h3]
  · rw [register_success s "abc" "123456" now (by decide) (by decide) habs]

/-- Witness for C2 on an absent backing file. -/
theorem C2_validation_boundaries_witness :
    register_user false (AuthSystem.init .absent) "" "abcdef" "t" =
      ((false, msgEmpty), AuthSystem.init .absent) ∧
    register_user false (AuthSystem.init .absent) "ab" "abcdef" "t" =
      ((false, msgShortUser), AuthSystem.init .absent) ∧
    register_user false (AuthSystem.init .absent) "abc" "12345" "t" =
      ((false, msgShortPass), AuthSystem.init .absent) ∧
    (register_user true (AuthSystem.init .absent) "abc" "123456" "t").1 =
      (true, msgRegistered) :=
  C2_validation_boundaries false (AuthSystem.init .absent) "t" rfl

/-- C3 claims every username longer than 30 characters is rejected at
registration; the code checks only the minimum length, so a 31-character
username registers successfully.  Concrete counterexample. -/
theorem C3_counterexample :
    ("aaaaaaaaaaaaaaaaaaaaaaaaaaaaaaa" : String).length = 31 ∧
    (register_user true (AuthSystem.init .absent) "aaaaaaaaaaaaaaaaaaaaaaaaaaaaaaa" "123456"
        "2024-01-01T00:00:00").1 = (true, msgRegistered) := by
  constructor
  · decide
  · rw [register_success (AuthSystem.init .absent) "aaaaaaaaaaaaaaaaaaaaaaaaaaaaaaa" "123456"
      "2024-01-01T00:00:00" (by decide) (by decide) rfl]

/-- C3 amended: registration enforces no maximum username length; for any
username of 31 or more characters a registration with a valid password on
a store not containing it succeeds when the save succeeds. -/
theorem C3_amended_no_max_length (s : AuthSystem) (u p now : String)
    (hu : 31 ≤ u.length) (hp : 6 ≤ p.length)
    (habs : dictGet u (_load_users s) = none) :
    (register_user true s u p now).1 = (true, msgRegistered) := by
  rw [register_success s u p now (by omega) hp habs]

/-- Witness for the amended C3. -/
theorem C3_amended_no_max_length_witness :
    (register_user true (AuthSystem.init .absent) "bbbbbbbbbbbbbbbbbbbbbbbbbbbbbbb" "123456"
        "t").1 = (true, msgRegistered) :=
  C3_amended_no_max_length (AuthSystem.init .absent) _ _ _ (by decide) (by decide) rfl

/-- C5: a wrong-password attempt on an existing, non-blocked user
increments that user's failure count by exactly one; if the new count
reaches the threshold the result is the blocked failure, otherwise the
failure reports `threshold − new count` attempts remaining. -/
theorem C5_wrong_password_increment (s : AuthSystem) (u p : String) (r : UserRecord)
    (hb : _is_user_blocked s u = false)
    (hget : dictGet u (_load_users s) = some r)
    (hpw : r.password ≠ _hash_password p) :
    getAttempts (login s u p).2 u = getAttempts s u + 1 ∧
    (s.max_attempts ≤ getAttempts s u + 1 →
      (login s u p).1 = (false, blockedMsg s.max_attempts)) ∧
    (getAttempts s u + 1 < s.max_attempts →
      (login s u p).1 = (false, incorrectMsg (s.max_attempts - (getAttempts s u + 1)))) := by
  rw [login_wrong s u p r hb hget hpw]
  refine ⟨getAttempts_increment_self s u, ?_, ?_⟩
  · intro h
    simp [Nat.sub_eq_zero_of_le h]
  · intro h
    have hne : ¬ s.max_attempts - (getAttempts s u + 1) = 0 := by omega
    simp [hne]

/-- Witness for C5: first wrong attempt against `alice`. -/
theorem C5_wrong_password_increment_witness :
    getAttempts (login aliceStore "alice" "wrong").2 "alice" =
      getAttempts aliceStore "alice" + 1 ∧
    (aliceStore.max_attempts ≤ getAttempts aliceStore "alice" + 1 →
      (login aliceStore "alice" "wrong").1 = (false, blockedMsg aliceStore.max_attempts)) ∧
    (getAttempts aliceStore "alice" + 1 < aliceStore.max_attempts →
      (login aliceStore "alice" "wrong").1 =
        (false, incorrectMsg (aliceStore.max_attempts - (getAttempts aliceStore "alice" + 1)))) :=
  C5_wrong_password_increment aliceStore "alice" "wrong" aliceRecord rfl rfl (by decide)

/-- C6: a login for a non-blocked username absent from the loaded mapping
fails with "not found" and still increments that username's failure
count; after threshold-many such attempts the tracker reports blocked,
and once blocked every further login fails with the blocked outcome
without consulting the store (the last conjunct holds for an arbitrary
state `s'`, whatever its backing file contains). -/
theorem C6_not_found_tracking (s : AuthSystem) (u p : String)
    (h0 : getAttempts s u = 0) (habs : dictGet u (_load_users s) = none) :
    (∀ n, n < s.max_attempts →
      (login (loginN s u p n) u p).1 = (false, msgNotFound) ∧
      getAttempts (loginN s u p (n + 1)) u = n + 1) ∧
    _is_user_blocked (loginN s u p s.max_attempts) u = true ∧
    (∀ (s' : AuthSystem) (p' : String), _is_user_blocked s' u = true →
      login s' u p' = ((false, blockedMsg s'.max_attempts), s')) := by
  refine ⟨?_, ?_, ?_⟩
  · intro n hn
    obtain ⟨hf, hm, hc⟩ := loginN_invariant s u p h0 habs n (le_of_lt hn)
    have hb : _is_user_blocked (loginN s u p n) u = false := by
      rw [not_blocked_iff, hc, hm]
      omega
    have habs2 : dictGet u (_load_users (loginN s u p n)) = none := by
      rw [load_of_file_eq hf]
      exact habs
    refine ⟨?_, (loginN_invariant s u p h0 habs (n + 1) hn).2.2⟩
    rw [login_not_found _ u p hb habs2]
  · obtain ⟨hf, hm, hc⟩ := loginN_invariant s u p h0 habs s.max_attempts le_rfl
    rw [blocked_iff, hc, hm]
  · intro s' p' hb'
    exact login_blocked s' u p' hb'

/-- Witness for C6: three not-found attempts against the name `ghost` on
an absent backing file. -/
theorem C6_not_found_tracking_witness :
    (∀ n, n < (AuthSystem.init .absent).max_attempts →
      (login (loginN (AuthSystem.init .absent) "ghost" "pw" n) "ghost" "pw").1 =
        (false, msgNotFound) ∧
      getAttempts (loginN (AuthSystem.init .absent) "ghost" "pw" (n + 1)) "ghost" = n + 1) ∧
    _is_user_blocked
      (loginN (AuthSystem.init .absent) "ghost" "pw" (AuthSystem.init .absent).max_attempts)
      "ghost" = true ∧
    (∀ (s' : AuthSystem) (p' : String), _is_user_blocked s' "ghost" = true →
      login s' "ghost" p' = ((false, blockedMsg s'.max_attempts), s')) :=
  C6_not_found_tracking (AuthSystem.init .absent) "ghost" "pw" rfl rfl

/-- C7: `unblock_user` returns whether a failure entry existed and always
leaves the count at zero; afterwards a correct-password login for a
registered user succeeds (with a positive threshold) and the final state
has no failure entry for the user. -/
theorem C7_unblock_recovery (s : AuthSystem) (u p : String) (r : UserRecord)
    (hmax : 0 < s.max_attempts)
    (hget : dictGet u (_load_users s) = some r)
    (hr : r.password = _hash_password p) :
    (unblock_user s u).1 = (dictGet u s.failed_attempts).isSome ∧
    getAttempts (unblock_user s u).2 u = 0 ∧
    (login (unblock_user s u).2 u p).1 = (true, msgLoginOk) ∧
    dictGet u (login (unblock_user s u).2 u p).2.failed_attempts = none := by
  have hb2 : _is_user_blocked (unblock_user s u).2 u = false := by
    rw [not_blocked_iff, getAttempts_unblock_self, unblock_max]
    exact hmax
  have hget2 : dictGet u (_load_users (unblock_user s u).2) = some r := by
    rw [load_of_file_eq (unblock_file s u)]
    exact hget
  have e : login (unblock_user s u).2 u p =
      ((true, msgLoginOk), _reset_failed_attempts (unblock_user s u).2 u) :=
    login_correct _ u p r hb2 hget2 hr
  refine ⟨unblock_fst s u, getAttempts_unblock_self s u, ?_, ?_⟩
  · rw [e]
  · simp only [e]
    exact dictGet_reset_self _ u

/-- Witness for C7: unblocking the blocked `alice`, then logging in with
the correct password. -/
theorem C7_unblock_recovery_witness :
    (unblock_user aliceBlocked "alice").1 =
      (dictGet "alice" aliceBlocked.failed_attempts).isSome ∧
    getAttempts (unblock_user aliceBlocked "alice").2 "alice" = 0 ∧
    (login (unblock_user aliceBlocked "alice").2 "alice" "secret1").1 = (true, msgLoginOk) ∧
    dictGet "alice"
      (login (unblock_user aliceBlocked "alice").2 "alice" "secret1").2.failed_attempts =
      none :=
  C7_unblock_recovery aliceBlocked "alice" "secret1" aliceRecord (by decide) rfl rfl

/-- C8: with an absent or invalid backing file, `_load_users` returns the
empty mapping (it is a total function, so nothing is raised), and every
store-reading operation behaves as on an empty store: the count is 0, no
user exists, a non-blocked login fails with "not found", and a valid
registration passes the duplicate check. -/
theorem C8_missing_or_invalid (s : AuthSystem)
    (h : s.file = .absent ∨ s.file = .invalid) :
    _load_users s = [] ∧
    get_user_count s = 0 ∧
    (∀ u, user_exists s u = false) ∧
    (∀ u p, _is_user_blocked s u = false →
      login s u p = ((false, msgNotFound), _increment_failed_attempts s u)) ∧
    (∀ u p now, 3 ≤ u.length → 6 ≤ p.length →
      (register_user true s u p now).1 = (true, msgRegistered)) := by
  have hload : _load_users s = [] := by
    rcases h with he | he <;> (unfold _load_users; rw [he])
  refine ⟨hload, ?_, ?_, ?_, ?_⟩
  · unfold get_user_count
    rw [hload]
    rfl
  · intro u
    unfold user_exists
    rw [hload]
    rfl
  · intro u p hb
    exact login_not_found s u p hb (by rw [hload]; rfl)
  · intro u p now hu hp
    rw [register_success s u p now hu hp (by rw [hload]; rfl)]

/-- Witness for C8 on an invalid (malformed JSON) backing file. -/
theorem C8_missing_or_invalid_witness :
    _load_users (AuthSystem.init .invalid) = [] ∧
    get_user_count (AuthSystem.init .invalid) = 0 ∧
    (∀ u, user_exists (AuthSystem.init .invalid) u = false) ∧
    (∀ u p, _is_user_blocked (AuthSystem.init .invalid) u = false →
      login (AuthSystem.init .invalid) u p =
        ((false, msgNotFound), _increment_failed_attempts (AuthSystem.init .invalid) u)) ∧
    (∀ u p now, 3 ≤ u.length → 6 ≤ p.length →
      (register_user true (AuthSystem.init .invalid) u p now).1 = (true, msgRegistered)) :=
  C8_missing_or_invalid (AuthSystem.init .invalid) (Or.inr rfl)

/-- C9: authentication never writes the backing file, and a registration
rejected by validation or by the duplicate check leaves the whole state
(hence the backing file) unchanged. -/
theorem C9_store_mutation_frame :
    (∀ (s : AuthSystem) (u p : String), (login s u p).2.file = s.file) ∧
    (∀ (saveOk : Bool) (s : AuthSystem) (u p now : String),
      u = "" ∨ p = "" ∨ u.length < 3 ∨ p.length < 6 ∨
        (dictGet u (_load_users s)).isSome = true →
      (register_user saveOk s u p now).2 = s) :=
  ⟨login_preserves_file,
   fun saveOk s u p now h => (register_rejected saveOk s u p now h).2⟩

/-- Witness for C9: a login attempt and a rejected (short-username)
registration against the concrete `alice` store. -/
theorem C9_store_mutation_frame_witness :
    (login aliceStore "alice" "x").2.file = aliceStore.file ∧
    (register_user true aliceStore "ab" "abcdef" "t").2 = aliceStore :=
  ⟨C9_store_mutation_frame.1 aliceStore "alice" "x",
   C9_store_mutation_frame.2 true aliceStore "ab" "abcdef" "t" (by decide)⟩

/-- C10: `register_user` neither modifies the lockout state (the
`failed_attempts` mapping and the threshold are preserved in every case)
nor reads it (its outcome does not depend on `failed_attempts`); in
particular a username blocked by not-found attempts can still be
registered, and its first correct-password login afterwards still reports
blocked. -/
theorem C10_register_lockout_frame :
    (∀ (saveOk : Bool) (s : AuthSystem) (u p now : String),
      (register_user saveOk s u p now).2.failed_attempts = s.failed_attempts ∧
      (register_user saveOk s u p now).2.max_attempts = s.max_attempts) ∧
    (∀ (saveOk : Bool) (s : AuthSystem) (fa : List (String × Nat)) (u p now : String),
      (register_user saveOk { s with failed_attempts := fa } u p now).1 =
        (register_user saveOk s u p now).1) ∧
    (∀ (s : AuthSystem) (u p now : String),
      _is_user_blocked s u = true → 3 ≤ u.length → 6 ≤ p.length →
      dictGet u (_load_users s) = none →
      (register_user true s u p now).1 = (true, msgRegistered) ∧
      (login (register_user true s u p now).2 u p).1 = (false, blockedMsg s.max_attempts)) := by
  refine ⟨register_frame, fun saveOk s fa => register_ignores_attempts saveOk s fa, ?_⟩
  intro s u p now hb hu hp habs
  have e := register_success s u p now hu hp habs
  have hb2 : _is_user_blocked (register_user true s u p now).2 u = true := by
    rw [e]
    exact hb
  refine ⟨by rw [e], ?_⟩
  rw [login_blocked _ u p hb2]
  rw [e]

/-- Witness for C10: registering the blocked, unregistered `ghost`. -/
theorem C10_register_lockout_frame_witness :
    (register_user true ghostBlocked "ghost" "123456" "t").2.failed_attempts =
      ghostBlocked.failed_attempts ∧
    (register_user true { ghostBlocked with failed_attempts := [] } "ghost" "123456" "t").1 =
      (register_user true ghostBlocked "ghost" "123456" "t").1 ∧
    ((register_user true ghostBlocked "ghost" "123456" "t").1 = (true, msgRegistered) ∧
      (login (register_user true ghostBlocked "ghost" "123456" "t").2 "ghost" "123456").1 =
        (false, blockedMsg ghostBlocked.max_attempts)) :=
  ⟨(C10_register_lockout_frame.1 true ghostBlocked "ghost" "123456" "t").1,
   C10_register_lockout_frame.2.1 true ghostBlocked [] "ghost" "123456" "t",
   C10_register_lockout_frame.2.2 ghostBlocked "ghost" "123456" "t" (by decide) (by decide)
     (by decide) rfl⟩

/-! ### Properties of the digest format (towards C4)

Determinism of `_hash_password` is definitional.  The two format
properties below hold for every password.  The remaining part of C4 —
`_hash_password p ≠ p` for every non-empty `p` — is equivalent to the
nonexistence of a fixed point of the SHA-256 hex digest among 64-character
lowercase hex strings, which is an open question and is not settled here. -/

def isLowerHex (c : Char) : Bool := "0123456789abcdef".data.contains c

theorem hexChar_isLowerHex : ∀ n < 16, isLowerHex (hexChar n) = true := by decide

theorem toHex8_mem (x : Nat) : ∀ c ∈ toHex8 x, isLowerHex c = true := by
  intro c hc
  simp only [toHex8, List.mem_cons, List.not_mem_nil, or_false] at hc
  rcases hc with h | h | h | h | h | h | h | h <;> subst h <;>
    exact hexChar_isLowerHex _ (Nat.mod_lt _ (by norm_num))

theorem hash_password_length (p : String) : (_hash_password p).length = 64 := by
  unfold _hash_password hexDigest
  simp [String.length, toHex8]

theorem hash_password_lower_hex (p : String) :
    ∀ c ∈ (_hash_password p).data, isLowerHex c = true := by
  unfold _hash_password hexDigest
  intro c hc
  simp only [List.append_assoc, List.mem_append] at hc
  rcases hc with h | h | h | h | h | h | h | h <;> exact toHex8_mem _ c h

end SistemaLogin
